import Mathlib

/-
  Verification development for the terrain-query core of mangos-tbc
  (src/game/Maps/GridMap.cpp): the tile-file loader (GridMap::loadData and
  the per-sub-block loaders), the height/area/liquid query engine, and the
  reference-counted tile cache (TerrainInfo).

  Machine floats of the source are modelled as exact rationals; C int
  casts, masks and divisions are modelled explicitly on Int. C two's
  complement `n & (2^k - 1)` is Int.emod by 2^k; the C `(int)` cast of a
  float truncates toward zero.
-/

/-- Modelled from the spec: tile side length in world units (GridDefines.h is
not part of the sources; the spec fixes a constant side length for the
world's 64x64 tile grid). The source constant 533.33333f is idealised as the
exact rational 1600/3. -/
def SIZE_OF_GRIDS : ℚ := 1600 / 3

/-- Modelled from the spec: fine height-sampling resolution per tile (the
spec fixes n = 128). -/
def MAP_RESOLUTION : Int := 128

/-- Modelled from the spec: number of tiles per side of a region
(the spec fixes an N x N grid with N = 64). -/
def MAX_NUMBER_OF_GRIDS : Int := 64

/-- Modelled from the spec: the reserved "invalid height" sentinel, a very
large negative constant (GridMap.h is not part of the sources). -/
def INVALID_HEIGHT_VALUE : ℚ := -100000

/-- Little-endian uint32 value of the 4-byte root tag "MAPS". -/
def MAP_MAGIC_V : Nat := 0x5350414D

/-- Little-endian uint32 value of the 4-byte version tag "s1.4". -/
def MAP_VERSION_MAGIC_V : Nat := 0x342E3173

/-- Little-endian uint32 value of the area sub-block tag "AREA". -/
def MAP_AREA_MAGIC_V : Nat := 0x41455241

/-- Little-endian uint32 value of the height sub-block tag "MHGT". -/
def MAP_HEIGHT_MAGIC_V : Nat := 0x5447484D

/-- Little-endian uint32 value of the liquid sub-block tag "MLIQ". -/
def MAP_LIQUID_MAGIC_V : Nat := 0x51494C4D

/-- Modelled from the spec: area sub-block flag bit "no per-cell area grid"
(GridMap.h is not part of the sources). -/
def MAP_AREA_NO_AREA : Nat := 0x0001

/-- Modelled from the spec: height sub-block flag bit "no height grids". -/
def MAP_HEIGHT_NO_HEIGHT : Nat := 0x0001

/-- Modelled from the spec: height sub-block flag bit "16-bit quantized". -/
def MAP_HEIGHT_AS_INT16 : Nat := 0x0002

/-- Modelled from the spec: height sub-block flag bit "8-bit quantized". -/
def MAP_HEIGHT_AS_INT8 : Nat := 0x0004

/-- Modelled from the spec: liquid sub-block flag bit "no per-cell
type/flag grids". -/
def MAP_LIQUID_NO_TYPE : Nat := 0x0001

/-- Modelled from the spec: liquid sub-block flag bit "no height grid". -/
def MAP_LIQUID_NO_HEIGHT : Nat := 0x0002

/-- Modelled from the spec: the deep-water bit of the liquid type mask
(GridMap.h is not part of the sources). -/
def MAP_LIQUID_TYPE_DEEP_WATER : Nat := 0x40

/-- The C cast `(int)q` of a floating value: truncation toward zero. -/
def cTrunc (q : ℚ) : Int := q.num.tdiv (q.den : Int)

theorem cTrunc_eq_floor {q : ℚ} (h : 0 ≤ q) : cTrunc q = ⌊q⌋ := by
  unfold cTrunc
  rw [Int.tdiv_eq_ediv (Rat.num_nonneg.mpr h) (Int.natCast_nonneg q.den)]
  exact Rat.floor_def.symm

theorem cTrunc_neg (q : ℚ) : cTrunc (-q) = -(cTrunc q) := by
  unfold cTrunc
  rw [Rat.neg_num, Rat.neg_den, Int.neg_tdiv]

theorem cTrunc_eq_ceil {q : ℚ} (h : q ≤ 0) : cTrunc q = ⌈q⌉ := by
  have h2 : cTrunc q = -(cTrunc (-q)) := by rw [cTrunc_neg, neg_neg]
  rw [h2, cTrunc_eq_floor (by linarith), ← Int.ceil_neg, neg_neg]

theorem cTrunc_intCast (n : Int) : cTrunc (n : ℚ) = n := by
  unfold cTrunc
  rw [Rat.num_intCast, Rat.den_intCast, Int.natCast_one, Int.tdiv_one]

/-- Hole-mask horizontal bit templates (holetab_h in the source,
indexed by holeCol in 0..3). Out-of-range indices never occur. -/
def holetab_h (i : Int) : Nat :=
  if i = 0 then 0x1111 else if i = 1 then 0x2222
  else if i = 2 then 0x4444 else if i = 3 then 0x8888 else 0

/-- Hole-mask vertical bit templates (holetab_v in the source,
indexed by holeRow in 0..3). -/
def holetab_v (i : Int) : Nat :=
  if i = 0 then 0x000F else if i = 1 then 0x00F0
  else if i = 2 then 0x0F00 else if i = 3 then 0xF000 else 0

/-- The height-sampling strategy selected at load time; models the member
function pointer m_gridGetHeight of the source. -/
inductive HeightStrategy
  | flat
  | fromFloat
  | fromUint8
  | fromUint16
deriving DecidableEq

/-- In-memory state of one loaded tile (class GridMap of the source).
Grid buffers are modelled as total functions from the flat C array index;
an absent buffer (null pointer) is none. In the source m_V9/m_uint16_V9/
m_uint8_V9 share a union (likewise the V8 buffers); they are modelled as
separate optional fields, at most one of which is populated. -/
structure GridMap where
  m_gridArea : Nat
  m_area_map : Option (Int → Nat)
  m_gridHeight : ℚ
  m_gridIntHeightMultiplier : ℚ
  m_V9 : Option (Int → ℚ)
  m_V8 : Option (Int → ℚ)
  m_uint16_V9 : Option (Int → Nat)
  m_uint16_V8 : Option (Int → Nat)
  m_uint8_V9 : Option (Int → Nat)
  m_uint8_V8 : Option (Int → Nat)
  m_holes : Int → Int → Nat
  m_gridGetHeight : HeightStrategy
  m_liquidGlobalEntry : Nat
  m_liquidGlobalFlags : Nat
  m_liquid_offX : Nat
  m_liquid_offY : Nat
  m_liquid_width : Nat
  m_liquid_height : Nat
  m_liquidLevel : ℚ
  m_liquidEntry : Option (Int → Nat)
  m_liquidFlags : Option (Int → Nat)
  m_liquid_map : Option (Int → ℚ)
  m_fullyLoaded : Bool

/-- The freshly constructed GridMap (GridMap::GridMap in the source):
all buffers null, holes zeroed, flat strategy, sentinel heights. -/
def emptyGridMap : GridMap where
  m_gridArea := 0
  m_area_map := none
  m_gridHeight := INVALID_HEIGHT_VALUE
  m_gridIntHeightMultiplier := 0
  m_V9 := none
  m_V8 := none
  m_uint16_V9 := none
  m_uint16_V8 := none
  m_uint8_V9 := none
  m_uint8_V8 := none
  m_holes := fun _ _ => 0
  m_gridGetHeight := .flat
  m_liquidGlobalEntry := 0
  m_liquidGlobalFlags := 0
  m_liquid_offX := 0
  m_liquid_offY := 0
  m_liquid_width := 0
  m_liquid_height := 0
  m_liquidLevel := INVALID_HEIGHT_VALUE
  m_liquidEntry := none
  m_liquidFlags := none
  m_liquid_map := none
  m_fullyLoaded := false

/-- World coordinate to fine (128-per-tile) map coordinate:
MAP_RESOLUTION * (32 - c / SIZE_OF_GRIDS), shared by all height and
liquid queries of the source. -/
def mapCoordFine (c : ℚ) : ℚ := (MAP_RESOLUTION : ℚ) * (32 - c / SIZE_OF_GRIDS)

/-- The cell index the source computes as `x_int = (int)x; x_int &= (MAP_RESOLUTION - 1)`. -/
def fineIndex (c : ℚ) : Int := cTrunc (mapCoordFine c) % MAP_RESOLUTION

/-- The fractional cell position the source computes as `x -= x_int`
(taken before the mask, exactly as in the source). -/
def fineFrac (c : ℚ) : ℚ := mapCoordFine c - ((cTrunc (mapCoordFine c) : Int) : ℚ)

namespace GridMap

/-- GridMap::isHole of the source. The row/col arguments are the masked
cell indices, always in [0,128), so C `/` and `%` agree with ediv/emod. -/
def isHole (g : GridMap) (row col : Int) : Bool :=
  let cellRow := row / 8
  let cellCol := col / 8
  let holeRow := (row % 8) / 2
  let holeCol := (col - cellCol * 8) / 2
  let hole := g.m_holes cellRow cellCol
  Nat.land (Nat.land hole (holetab_h holeCol)) (holetab_v holeRow) != 0

/-- GridMap::getHeightFromFlat of the source. -/
def getHeightFromFlat (g : GridMap) (_x _y : ℚ) : ℚ := g.m_gridHeight

/-- GridMap::getHeightFromFloat of the source: null check, coordinate
transform, hole check, then triangle selection and the per-triangle plane
evaluation a*x + b*y + c with the coefficients of the source. -/
def getHeightFromFloat (g : GridMap) (x y : ℚ) : ℚ :=
  match g.m_V8, g.m_V9 with
  | some v8, some v9 =>
    let xi := fineIndex x
    let yi := fineIndex y
    let fx := fineFrac x
    let fy := fineFrac y
    if g.isHole xi yi then INVALID_HEIGHT_VALUE
    else
      if fx + fy < 1 then
        if fx > fy then
          -- 1 triangle (h1, h2, h5 points)
          let h1 := v9 (xi * 129 + yi)
          let h2 := v9 ((xi + 1) * 129 + yi)
          let h5 := 2 * v8 (xi * 128 + yi)
          (h2 - h1) * fx + (h5 - h1 - h2) * fy + h1
        else
          -- 2 triangle (h1, h3, h5 points)
          let h1 := v9 (xi * 129 + yi)
          let h3 := v9 (xi * 129 + yi + 1)
          let h5 := 2 * v8 (xi * 128 + yi)
          (h5 - h1 - h3) * fx + (h3 - h1) * fy + h1
      else
        if fx > fy then
          -- 3 triangle (h2, h4, h5 points)
          let h2 := v9 ((xi + 1) * 129 + yi)
          let h4 := v9 ((xi + 1) * 129 + yi + 1)
          let h5 := 2 * v8 (xi * 128 + yi)
          (h2 + h4 - h5) * fx + (h4 - h2) * fy + (h5 - h4)
        else
          -- 4 triangle (h3, h4, h5 points)
          let h3 := v9 (xi * 129 + yi + 1)
          let h4 := v9 ((xi + 1) * 129 + yi + 1)
          let h5 := 2 * v8 (xi * 128 + yi)
          (h4 - h3) * fx + (h3 + h4 - h5) * fy + (h5 - h4)
  | _, _ => INVALID_HEIGHT_VALUE

/-- GridMap::getHeightFromUint16 of the source: no hole check; integer
triangle math over the raw samples (V9_h1_ptr arithmetic inlined: the
source base pointer offset x_int*128 + x_int + y_int equals
x_int*129 + y_int), then one multiplier/offset application. -/
def getHeightFromUint16 (g : GridMap) (x y : ℚ) : ℚ :=
  match g.m_uint16_V8, g.m_uint16_V9 with
  | some v8, some v9 =>
    let xi := fineIndex x
    let yi := fineIndex y
    let fx := fineFrac x
    let fy := fineFrac y
    let base := xi * 128 + xi + yi
    let q : Int × Int × Int :=
      if fx + fy < 1 then
        if fx > fy then
          let h1 : Int := v9 base
          let h2 : Int := v9 (base + 129)
          let h5 : Int := 2 * (v8 (xi * 128 + yi) : Int)
          (h2 - h1, h5 - h1 - h2, h1)
        else
          let h1 : Int := v9 base
          let h3 : Int := v9 (base + 1)
          let h5 : Int := 2 * (v8 (xi * 128 + yi) : Int)
          (h5 - h1 - h3, h3 - h1, h1)
      else
        if fx > fy then
          let h2 : Int := v9 (base + 129)
          let h4 : Int := v9 (base + 130)
          let h5 : Int := 2 * (v8 (xi * 128 + yi) : Int)
          (h2 + h4 - h5, h4 - h2, h5 - h4)
        else
          let h3 : Int := v9 (base + 1)
          let h4 : Int := v9 (base + 130)
          let h5 : Int := 2 * (v8 (xi * 128 + yi) : Int)
          (h4 - h3, h3 + h4 - h5, h5 - h4)
    ((q.1 : ℚ) * fx + (q.2.1 : ℚ) * fy + (q.2.2 : ℚ)) * g.m_gridIntHeightMultiplier + g.m_gridHeight
  | _, _ => g.m_gridHeight

/-- GridMap::getHeightFromUint8 of the source: identical algorithm over
8-bit raw samples, also without a hole check. -/
def getHeightFromUint8 (g : GridMap) (x y : ℚ) : ℚ :=
  match g.m_uint8_V8, g.m_uint8_V9 with
  | some v8, some v9 =>
    let xi := fineIndex x
    let yi := fineIndex y
    let fx := fineFrac x
    let fy := fineFrac y
    let base := xi * 128 + xi + yi
    let q : Int × Int × Int :=
      if fx + fy < 1 then
        if fx > fy then
          let h1 : Int := v9 base
          let h2 : Int := v9 (base + 129)
          let h5 : Int := 2 * (v8 (xi * 128 + yi) : Int)
          (h2 - h1, h5 - h1 - h2, h1)
        else
          let h1 : Int := v9 base
          let h3 : Int := v9 (base + 1)
          let h5 : Int := 2 * (v8 (xi * 128 + yi) : Int)
          (h5 - h1 - h3, h3 - h1, h1)
      else
        if fx > fy then
          let h2 : Int := v9 (base + 129)
          let h4 : Int := v9 (base + 130)
          let h5 : Int := 2 * (v8 (xi * 128 + yi) : Int)
          (h2 + h4 - h5, h4 - h2, h5 - h4)
        else
          let h3 : Int := v9 (base + 1)
          let h4 : Int := v9 (base + 130)
          let h5 : Int := 2 * (v8 (xi * 128 + yi) : Int)
          (h4 - h3, h3 + h4 - h5, h5 - h4)
    ((q.1 : ℚ) * fx + (q.2.1 : ℚ) * fy + (q.2.2 : ℚ)) * g.m_gridIntHeightMultiplier + g.m_gridHeight
  | _, _ => g.m_gridHeight

/-- Dispatch through the strategy member (the call (this->*m_gridGetHeight)
behind GridMap::getHeight). -/
def getHeight (g : GridMap) (x y : ℚ) : ℚ :=
  match g.m_gridGetHeight with
  | .flat => g.getHeightFromFlat x y
  | .fromFloat => g.getHeightFromFloat x y
  | .fromUint8 => g.getHeightFromUint8 x y
  | .fromUint16 => g.getHeightFromUint16 x y

/-- The 16-per-tile cell index of GridMap::getArea and getTerrainType:
`(int)(16 * (32 - c/SIZE_OF_GRIDS)) & 15`. -/
def coarseIndex (c : ℚ) : Int := cTrunc (16 * (32 - c / SIZE_OF_GRIDS)) % 16

/-- GridMap::getArea of the source. -/
def getArea (g : GridMap) (x y : ℚ) : Nat :=
  match g.m_area_map with
  | none => g.m_gridArea
  | some m =>
    let lx := coarseIndex x
    let ly := coarseIndex y
    m (lx * 16 + ly)

/-- GridMap::getTerrainType of the source. -/
def getTerrainType (g : GridMap) (x y : ℚ) : Nat :=
  match g.m_liquidFlags with
  | none => g.m_liquidGlobalFlags
  | some m =>
    let lx := coarseIndex x
    let ly := coarseIndex y
    m (lx * 16 + ly)

end GridMap

/-- The water-state classification returned by the liquid queries
(GridMapLiquidStatus of the source; only constructor identity matters). -/
inductive GridMapLiquidStatus
  | LIQUID_MAP_NO_WATER
  | LIQUID_MAP_ABOVE_WATER
  | LIQUID_MAP_WATER_WALK
  | LIQUID_MAP_IN_WATER
  | LIQUID_MAP_UNDER_WATER
deriving DecidableEq

/-- The optional detail record filled by getLiquidStatus
(GridMapLiquidData of the source). -/
structure GridMapLiquidData where
  entry : Nat
  type_flags : Nat
  level : ℚ
  depth_level : ℚ

/-- One row of the external liquid-type table (LiquidTypeEntry of the DBC
stores; only the Id and Type columns are consumed). The Type column is
named liqTypeIdx because Type is reserved in Lean. -/
structure LiquidTypeEntry where
  Id : Nat
  liqTypeIdx : Nat

/-- One row of the external area table (AreaTableEntry of the DBC stores;
only the LiquidTypeOverride array and the zone column are consumed). -/
structure AreaTableEntry where
  LiquidTypeOverride : Nat → Nat
  zone : Nat

/-- The external metadata lookups consumed by getLiquidStatus
(sLiquidTypeStore.LookupEntry, sAreaStore.LookupEntry and
GetAreaEntryByAreaID): external collaborators, passed as parameters. -/
structure DbcEnv where
  liquidTypeStore : Nat → Option LiquidTypeEntry
  areaStore : Nat → Option AreaTableEntry
  areaByID : Nat → Option AreaTableEntry

namespace GridMap

/-- The C ternary `m_liquidFlags ? m_liquidFlags[idx] : m_liquidGlobalFlags`
of the source. -/
def liquidFlagsAt (g : GridMap) (idx : Int) : Nat :=
  match g.m_liquidFlags with
  | some f => f idx
  | none => g.m_liquidGlobalFlags

/-- The C ternary `m_liquidEntry ? m_liquidEntry[idx] : m_liquidGlobalEntry`
of the source. -/
def liquidEntryAt (g : GridMap) (idx : Int) : Nat :=
  match g.m_liquidEntry with
  | some e => e idx
  | none => g.m_liquidGlobalEntry

/-- The C ternary `m_liquid_map ? m_liquid_map[i] : m_liquidLevel`
of the source. -/
def liquidLevelAt (g : GridMap) (i : Int) : ℚ :=
  match g.m_liquid_map with
  | some m => m i
  | none => g.m_liquidLevel

/-- The liquid type/entry resolution block of GridMap::getLiquidStatus
(the LookupEntry branch with the area-liquid override for categories
below 21, then `type |= (1 << liqTypeIdx) | (type & DEEP_WATER)`),
returning the resolved (entry, type) pair. -/
def resolveLiquidTypeEntry (env : DbcEnv) (g : GridMap) (x y : ℚ)
    (entry0 type0 : Nat) : Nat × Nat :=
  match env.liquidTypeStore entry0 with
  | some liquidEntry =>
    let entry1 := liquidEntry.Id
    let type1 := Nat.land type0 MAP_LIQUID_TYPE_DEEP_WATER
    let p : Nat × Nat :=
      if entry1 < 21 then
        match env.areaStore (g.getArea x y) with
        | some area =>
          let ov0 := area.LiquidTypeOverride (entry1 - 1)
          let ov := if ov0 = 0 ∧ area.zone ≠ 0 then
                      match env.areaByID area.zone with
                      | some area2 => area2.LiquidTypeOverride (entry1 - 1)
                      | none => ov0
                    else ov0
          match env.liquidTypeStore ov with
          | some liq => (ov, liq.liqTypeIdx)
          | none => (entry1, liquidEntry.liqTypeIdx)
        | none => (entry1, liquidEntry.liqTypeIdx)
      else (entry1, liquidEntry.liqTypeIdx)
    (p.1, Nat.lor type1 (Nat.lor (Nat.shiftLeft 1 p.2) (Nat.land type1 MAP_LIQUID_TYPE_DEEP_WATER)))
  | none => (entry0, type0)

/-- GridMap::getLiquidStatus of the source: the cell type/entry
resolution with the area-liquid override (categories below 21), the
required-type-mask check, the liquid sub-window check, the ground-level
check, and the classification by delta = liquid_level - z. The caller's
out-parameter is modelled by the Option component of the result: none
means the struct was not written. -/
def getLiquidStatus (env : DbcEnv) (g : GridMap) (x y z : ℚ) (ReqLiquidType : Nat)
    (collisionHeight : ℚ) : GridMapLiquidStatus × Option GridMapLiquidData :=
  -- Check water type (if no water return)
  if g.m_liquidFlags.isNone ∧ g.m_liquidGlobalFlags = 0 then (.LIQUID_MAP_NO_WATER, none)
  else
    let x_int := fineIndex x
    let y_int := fineIndex y
    -- Check water type in cell (idx = (x_int >> 3) * 16 + (y_int >> 3))
    let idx := (x_int / 8) * 16 + y_int / 8
    let type0 := g.liquidFlagsAt idx
    let entry0 := g.liquidEntryAt idx
    let te := resolveLiquidTypeEntry env g x y entry0 type0
    let entry := te.1
    let ltype := te.2
    if ltype = 0 then (.LIQUID_MAP_NO_WATER, none)
    else
      -- Check req liquid type mask
      if ReqLiquidType ≠ 0 ∧ Nat.land ReqLiquidType ltype = 0 then (.LIQUID_MAP_NO_WATER, none)
      else
        -- Check water height map sub-window
        let lx_int := x_int - (g.m_liquid_offY : Int)
        if lx_int < 0 ∨ lx_int ≥ (g.m_liquid_height : Int) then (.LIQUID_MAP_NO_WATER, none)
        else
          let ly_int := y_int - (g.m_liquid_offX : Int)
          if ly_int < 0 ∨ ly_int ≥ (g.m_liquid_width : Int) then (.LIQUID_MAP_NO_WATER, none)
          else
            let liquid_level := g.liquidLevelAt (lx_int * (g.m_liquid_width : Int) + ly_int)
            let ground_level := g.getHeight x y
            -- Check water level and ground level
            if liquid_level < ground_level ∨ z < ground_level - 2 then (.LIQUID_MAP_NO_WATER, none)
            else
              -- All ok in water -> store data
              let d : GridMapLiquidData :=
                { entry := entry, type_flags := ltype, level := liquid_level, depth_level := ground_level }
              let delta := liquid_level - z
              if delta > collisionHeight then (.LIQUID_MAP_UNDER_WATER, some d)
              else if delta > 0 then (.LIQUID_MAP_IN_WATER, some d)
              else if delta > -1 then (.LIQUID_MAP_WATER_WALK, some d)
              else (.LIQUID_MAP_ABOVE_WATER, some d)

/-- GridMap::unloadData of the source: frees every sub-block buffer and
resets the strategy to flat (the union V9/V8 buffers are freed once;
scalar fields such as m_gridArea and m_gridHeight are not reset). -/
def unloadData (g : GridMap) : GridMap :=
  { g with
    m_area_map := none
    m_V9 := none
    m_V8 := none
    m_uint16_V9 := none
    m_uint16_V8 := none
    m_uint8_V9 := none
    m_uint8_V8 := none
    m_liquidEntry := none
    m_liquidFlags := none
    m_liquid_map := none
    m_gridGetHeight := .flat }

end GridMap

/-- The root file header (GridMapFileHeader of the source; offset 0 means
the sub-block is absent). -/
structure GridMapFileHeader where
  mapMagic : Nat
  versionMagic : Nat
  areaMapOffset : Nat
  areaMapSize : Nat
  heightMapOffset : Nat
  heightMapSize : Nat
  liquidMapOffset : Nat
  liquidMapSize : Nat
  holesOffset : Nat
  holesSize : Nat

/-- Header of the area sub-block (GridMapAreaHeader of the source). -/
structure GridMapAreaHeader where
  fourcc : Nat
  flags : Nat
  gridArea : Nat

/-- The area sub-block as present in a tile file: header plus the 16x16
grid payload that follows it. -/
structure AreaSection where
  header : GridMapAreaHeader
  areaMapData : Int → Nat

/-- Header of the height sub-block (GridMapHeightHeader of the source). -/
structure GridMapHeightHeader where
  fourcc : Nat
  flags : Nat
  gridHeight : ℚ
  gridMaxHeight : ℚ

/-- The height sub-block as present in a tile file: header plus the V9/V8
payload bytes interpreted under each of the three encodings. -/
structure HeightSection where
  header : GridMapHeightHeader
  v9f : Int → ℚ
  v8f : Int → ℚ
  v9u16 : Int → Nat
  v8u16 : Int → Nat
  v9u8 : Int → Nat
  v8u8 : Int → Nat

/-- Header of the liquid sub-block (GridMapLiquidHeader of the source). -/
structure GridMapLiquidHeader where
  fourcc : Nat
  flags : Nat
  liquidType : Nat
  liquidFlags : Nat
  offsetX : Nat
  offsetY : Nat
  width : Nat
  height : Nat
  liquidLevel : ℚ

/-- The liquid sub-block as present in a tile file. -/
structure LiquidSection where
  header : GridMapLiquidHeader
  entryData : Int → Nat
  flagsData : Int → Nat
  heightData : Int → ℚ

/-- A tile file reachable through its root header; a sub-block's content
is read only when its offset in the root header is nonzero. The holes
payload is Option: none models a short file on which the fseek/fread of
loadHolesData fails. -/
structure MapFile where
  header : GridMapFileHeader
  areaSec : AreaSection
  holesSec : Option (Int → Int → Nat)
  heightSec : HeightSection
  liquidSec : LiquidSection

namespace GridMap

/-- GridMap::loadAreaData of the source: tag check, then gridArea and the
optional 16x16 grid. none models the C++ false return. -/
def loadAreaData (g : GridMap) (sec : AreaSection) : Option GridMap :=
  if sec.header.fourcc ≠ MAP_AREA_MAGIC_V then none
  else some { g with
    m_gridArea := sec.header.gridArea
    m_area_map := if Nat.land sec.header.flags MAP_AREA_NO_AREA = 0
                  then some sec.areaMapData else g.m_area_map }

/-- GridMap::loadHolesData of the source: a plain fseek/fread into
m_holes; fails only if the file is too short. -/
def loadHolesData (g : GridMap) (sec : Option (Int → Int → Nat)) : Option GridMap :=
  match sec with
  | none => none
  | some h => some { g with m_holes := h }

/-- GridMap::loadHeightData of the source: tag check, gridHeight, then
the strategy/buffer selection from the flag bits, with the quantized
multiplier (max - min) / fullScale computed at load time. -/
def loadHeightData (g : GridMap) (sec : HeightSection) : Option GridMap :=
  if sec.header.fourcc ≠ MAP_HEIGHT_MAGIC_V then none
  else
    let g1 := { g with m_gridHeight := sec.header.gridHeight }
    if Nat.land sec.header.flags MAP_HEIGHT_NO_HEIGHT = 0 then
      if Nat.land sec.header.flags MAP_HEIGHT_AS_INT16 ≠ 0 then
        some { g1 with
          m_uint16_V9 := some sec.v9u16
          m_uint16_V8 := some sec.v8u16
          m_gridIntHeightMultiplier := (sec.header.gridMaxHeight - sec.header.gridHeight) / 65535
          m_gridGetHeight := .fromUint16 }
      else if Nat.land sec.header.flags MAP_HEIGHT_AS_INT8 ≠ 0 then
        some { g1 with
          m_uint8_V9 := some sec.v9u8
          m_uint8_V8 := some sec.v8u8
          m_gridIntHeightMultiplier := (sec.header.gridMaxHeight - sec.header.gridHeight) / 255
          m_gridGetHeight := .fromUint8 }
      else
        some { g1 with
          m_V9 := some sec.v9f
          m_V8 := some sec.v8f
          m_gridGetHeight := .fromFloat }
    else
      some { g1 with m_gridGetHeight := .flat }

/-- GridMap::loadGridMapLiquidData of the source: tag check, the scalar
liquid fields, then the optional type/flag grids and height grid. -/
def loadGridMapLiquidData (g : GridMap) (sec : LiquidSection) : Option GridMap :=
  if sec.header.fourcc ≠ MAP_LIQUID_MAGIC_V then none
  else
    let g1 := { g with
      m_liquidGlobalEntry := sec.header.liquidType
      m_liquidGlobalFlags := sec.header.liquidFlags
      m_liquid_offX := sec.header.offsetX
      m_liquid_offY := sec.header.offsetY
      m_liquid_width := sec.header.width
      m_liquid_height := sec.header.height
      m_liquidLevel := sec.header.liquidLevel }
    let g2 := if Nat.land sec.header.flags MAP_LIQUID_NO_TYPE = 0 then
        { g1 with m_liquidEntry := some sec.entryData, m_liquidFlags := some sec.flagsData }
      else g1
    let g3 := if Nat.land sec.header.flags MAP_LIQUID_NO_HEIGHT = 0 then
        { g2 with m_liquid_map := some sec.heightData }
      else g2
    some g3

/-- GridMap::loadData of the source. The file argument is none when
fopen fails (file absent): that path returns success on the unloaded
state. With a file present, the root magic/version tags are checked and
the four sub-blocks are loaded in the source's order (area, holes,
height, liquid), each aborting the load with failure on its own tag or
read error; state mutated by earlier sub-blocks is kept as-is on a later
failure, exactly as in the source. -/
def loadData (g0 : GridMap) (file : Option MapFile) : Bool × GridMap :=
  -- Unload old data if exist
  let g := g0.unloadData
  match file with
  | none => (true, g)
  | some f =>
    if f.header.mapMagic = MAP_MAGIC_V ∧ f.header.versionMagic = MAP_VERSION_MAGIC_V then
      match (if f.header.areaMapOffset ≠ 0 then g.loadAreaData f.areaSec else some g) with
      | none => (false, g)
      | some g1 =>
        match (if f.header.holesOffset ≠ 0 then g1.loadHolesData f.holesSec else some g1) with
        | none => (false, g1)
        | some g2 =>
          match (if f.header.heightMapOffset ≠ 0 then g2.loadHeightData f.heightSec else some g2) with
          | none => (false, g2)
          | some g3 =>
            match (if f.header.liquidMapOffset ≠ 0 then g3.loadGridMapLiquidData f.liquidSec else some g3) with
            | none => (false, g3)
            | some g4 => (true, g4)
    else (false, g)

end GridMap

/-- One slot of the TerrainInfo tile cache: m_GridMaps[x][y] (presence and
its fullyLoaded flag), m_GridRef[x][y] and m_GridMapsLoadAttempted[x][y]. -/
structure GridSlot where
  loaded : Bool
  fullyLoaded : Bool
  loadAttempted : Bool
  ref : Int
deriving DecidableEq

/-- The state TerrainInfo::CleanUpGrids operates on: the 64x64 slot grid
plus the cleanup interval timer. -/
structure TerrainGridState where
  slots : Int → Int → GridSlot
  timerCurrent : Nat

/-- Modelled from the spec: the sweep period (60 s in milliseconds; the
IntervalTimer helper is not part of the sources: Update adds the elapsed
time, Passed tests current at or above the interval, Reset subtracts the
interval). -/
def cleanUpInterval : Nat := 60000

/-- The body CleanUpGrids runs on one slot when the timer fired: a slot
with a loaded store and refcount exactly zero is emptied and its
load-attempted flag cleared; every other slot is untouched. -/
def sweepSlot (s : GridSlot) : GridSlot :=
  if s.loaded = true ∧ s.ref = 0 then
    { loaded := false, fullyLoaded := false, loadAttempted := false, ref := s.ref }
  else s

/-- True when CleanUpGrids releases the slot's collision-mesh and navmesh
data through the external providers (the unloadMap calls of the source). -/
def sweepReleases (s : GridSlot) : Bool := s.loaded && s.ref == 0

/-- TerrainInfo::CleanUpGrids of the source: update the interval timer,
return unchanged unless it passed, else sweep every slot of the 64x64
grid and reset the timer. The second component records, per slot, whether
the external vmap/mmap unloads were invoked for it. -/
def CleanUpGrids (diff : Nat) (st : TerrainGridState) : TerrainGridState × (Int → Int → Bool) :=
  let cur := st.timerCurrent + diff
  if cur < cleanUpInterval then
    ({ st with timerCurrent := cur }, fun _ _ => false)
  else
    ({ slots := fun x y =>
         if 0 ≤ x ∧ x < MAX_NUMBER_OF_GRIDS ∧ 0 ≤ y ∧ y < MAX_NUMBER_OF_GRIDS
         then sweepSlot (st.slots x y) else st.slots x y,
       timerCurrent := cur - cleanUpInterval },
     fun x y =>
       if 0 ≤ x ∧ x < MAX_NUMBER_OF_GRIDS ∧ 0 ≤ y ∧ y < MAX_NUMBER_OF_GRIDS
       then sweepReleases (st.slots x y) else false)

/-- Result codes of the external collision-mesh loader. -/
inductive VMapLoadResult
  | ok
  | error
  | ignored
deriving DecidableEq

/-- The external collaborators TerrainInfo::LoadMapAndVMap consults for
one (x, y) slot: the providers' already-loaded checks, the tile-file load
result, and the collision-mesh load result (only logged by the source). -/
structure LoadEnv where
  vmapTileLoaded : Bool
  mmapLoaded : Bool
  loadDataOk : Bool
  vmapLoadResult : VMapLoadResult
deriving DecidableEq

/-- The cache's view of one slot's GridMap for LoadMapAndVMap: whether the
tile-file load reported success and whether SetFullyLoaded has run. -/
structure CachedMap where
  loadOk : Bool
  fullyLoaded : Bool
deriving DecidableEq

/-- TerrainInfo::LoadMapAndVMap of the source for one slot: early return
when the store exists and only the map is wanted, or when both external
providers report the tile loaded; otherwise create-and-load the GridMap
if the slot is empty (the slot is populated even when loadData fails),
return if mapOnly, else trigger the external loads and finally call
SetFullyLoaded on whatever store is present. -/
def LoadMapAndVMap (env : LoadEnv) (slot : Option CachedMap) (mapOnly : Bool) : Option CachedMap :=
  if (slot.isSome ∧ mapOnly) ∨ (env.vmapTileLoaded ∧ env.mmapLoaded) then slot
  else
    let slot1 : Option CachedMap :=
      match slot with
      | none => some { loadOk := env.loadDataOk, fullyLoaded := false }
      | some m => some m
    if mapOnly then slot1
    else
      match slot1 with
      | some m => some { m with fullyLoaded := true }
      | none => none

/-- Claim C7: whenever the sweep timer fires, every in-range slot holding
a loaded store with refcount exactly 0 is unloaded (store dropped,
external vmap/mmap releases invoked, loadAttempted cleared), and a slot
with positive refcount is left untouched and not released, regardless of
elapsed time. -/
theorem claim_C7 (st : TerrainGridState) (diff : Nat) (x y : Int)
    (hx : 0 ≤ x ∧ x < MAX_NUMBER_OF_GRIDS) (hy : 0 ≤ y ∧ y < MAX_NUMBER_OF_GRIDS)
    (hfire : cleanUpInterval ≤ st.timerCurrent + diff) :
    ((st.slots x y).loaded = true ∧ (st.slots x y).ref = 0 →
      ((CleanUpGrids diff st).1.slots x y).loaded = false ∧
      ((CleanUpGrids diff st).1.slots x y).loadAttempted = false ∧
      (CleanUpGrids diff st).2 x y = true) ∧
    (0 < (st.slots x y).ref →
      (CleanUpGrids diff st).1.slots x y = st.slots x y ∧
      (CleanUpGrids diff st).2 x y = false) := by
  unfold CleanUpGrids
  have hlt : ¬ (st.timerCurrent + diff < cleanUpInterval) := by omega
  rw [if_neg hlt]
  have hin : 0 ≤ x ∧ x < MAX_NUMBER_OF_GRIDS ∧ 0 ≤ y ∧ y < MAX_NUMBER_OF_GRIDS :=
    ⟨hx.1, hx.2, hy.1, hy.2⟩
  constructor
  · rintro ⟨h1, h2⟩
    simp only [if_pos hin]
    unfold sweepSlot sweepReleases
    rw [if_pos ⟨h1, h2⟩]
    simp [h1, h2]
  · intro h3
    have hne : ¬ ((st.slots x y).loaded = true ∧ (st.slots x y).ref = 0) := by
      rintro ⟨_, hz⟩
      omega
    have hz : ((st.slots x y).ref == 0) = false := by
      rw [beq_eq_false_iff_ne]
      omega
    simp only [if_pos hin]
    unfold sweepSlot sweepReleases
    rw [if_neg hne]
    simp [hz]

/-- A fully idle test slot: loaded, unreferenced. -/
def idleSlotState : TerrainGridState :=
  { slots := fun _ _ => { loaded := true, fullyLoaded := true, loadAttempted := true, ref := 0 },
    timerCurrent := 0 }

/-- Witness for claim C7: a fired sweep over an idle loaded slot. -/
theorem claim_C7_witness :
    ((0 : Int) ≤ 0 ∧ (0 : Int) < MAX_NUMBER_OF_GRIDS) ∧
    cleanUpInterval ≤ idleSlotState.timerCurrent + 60000 ∧
    (((idleSlotState.slots 0 0).loaded = true ∧ (idleSlotState.slots 0 0).ref = 0 →
      ((CleanUpGrids 60000 idleSlotState).1.slots 0 0).loaded = false ∧
      ((CleanUpGrids 60000 idleSlotState).1.slots 0 0).loadAttempted = false ∧
      (CleanUpGrids 60000 idleSlotState).2 0 0 = true) ∧
     (0 < (idleSlotState.slots 0 0).ref →
      (CleanUpGrids 60000 idleSlotState).1.slots 0 0 = idleSlotState.slots 0 0 ∧
      (CleanUpGrids 60000 idleSlotState).2 0 0 = false)) :=
  ⟨by decide, by decide,
   claim_C7 idleSlotState 60000 0 0 (by decide) (by decide) (by decide)⟩

/-- The load environment of the C3 counterexample: tile file corrupt
(loadData failed) and the collision-mesh load reporting an error. -/
def badLoadEnv : LoadEnv :=
  { vmapTileLoaded := false, mmapLoaded := false, loadDataOk := false,
    vmapLoadResult := .error }

/-- Claim C3 counterexample: a full load on an empty slot whose tile-file
load failed and whose collision-mesh load reported an error still ends
with SetFullyLoaded: the slot's store is marked fully loaded even though
two of the three loads failed. -/
theorem claim_C3_counterexample :
    badLoadEnv.loadDataOk = false ∧
    badLoadEnv.vmapLoadResult = VMapLoadResult.error ∧
    LoadMapAndVMap badLoadEnv none false = some { loadOk := false, fullyLoaded := true } := by
  refine ⟨rfl, rfl, ?_⟩
  decide

/-- Claim C3 as amended: the fullyLoaded flag is set at the end of every
full (non-mapOnly) LoadMapAndVMap that does not early-return, on whatever
store is then present, regardless of whether the tile-file, collision-mesh
or navmesh loads succeeded; and the flag is never reset by LoadMapAndVMap
once set (only unload destroys it). -/
theorem claim_C3 (env : LoadEnv) (slot : Option CachedMap) (mapOnly : Bool)
    (hne : ¬ ((slot.isSome ∧ mapOnly = true) ∨ (env.vmapTileLoaded = true ∧ env.mmapLoaded = true)))
    (hmo : mapOnly = false) :
    (∃ m, LoadMapAndVMap env slot mapOnly = some m ∧ m.fullyLoaded = true) ∧
    (∀ env2 (slot2 : Option CachedMap) mo2 m2, slot2 = some m2 → m2.fullyLoaded = true →
      ∃ m3, LoadMapAndVMap env2 slot2 mo2 = some m3 ∧ m3.fullyLoaded = true) := by
  constructor
  · subst hmo
    cases slot with
    | none =>
      refine ⟨{ loadOk := env.loadDataOk, fullyLoaded := true }, ?_, rfl⟩
      unfold LoadMapAndVMap
      rw [if_neg (by simpa using hne)]
      simp
    | some m =>
      refine ⟨{ m with fullyLoaded := true }, ?_, rfl⟩
      unfold LoadMapAndVMap
      rw [if_neg (by simpa using hne)]
      simp
  · rintro env2 slot2 mo2 m2 rfl hfl
    unfold LoadMapAndVMap
    by_cases he : ((some m2).isSome ∧ mo2 = true) ∨ (env2.vmapTileLoaded = true ∧ env2.mmapLoaded = true)
    · rw [if_pos (by simpa using he)]
      exact ⟨m2, rfl, hfl⟩
    · rw [if_neg (by simpa using he)]
      cases mo2 with
      | true => exact ⟨m2, by simp, hfl⟩
      | false => exact ⟨{ m2 with fullyLoaded := true }, by simp, rfl⟩

/-- Witness for the amended claim C3: a full load on an empty slot with
all providers cold. -/
theorem claim_C3_witness :
    (¬ (((none : Option CachedMap).isSome ∧ false = true) ∨
        (badLoadEnv.vmapTileLoaded = true ∧ badLoadEnv.mmapLoaded = true))) ∧
    ((∃ m, LoadMapAndVMap badLoadEnv none false = some m ∧ m.fullyLoaded = true) ∧
     (∀ env2 (slot2 : Option CachedMap) mo2 m2, slot2 = some m2 → m2.fullyLoaded = true →
       ∃ m3, LoadMapAndVMap env2 slot2 mo2 = some m3 ∧ m3.fullyLoaded = true)) :=
  ⟨by decide, claim_C3 badLoadEnv none false (by decide) rfl⟩

theorem unloadData_liquid (g : GridMap) :
    (g.unloadData).m_liquidEntry = none ∧ (g.unloadData).m_liquidFlags = none ∧
    (g.unloadData).m_liquid_map = none := by
  simp [GridMap.unloadData]

theorem loadAreaData_liquid {g g' : GridMap} {sec : AreaSection}
    (h : g.loadAreaData sec = some g') :
    g'.m_liquidEntry = g.m_liquidEntry ∧ g'.m_liquidFlags = g.m_liquidFlags ∧
    g'.m_liquid_map = g.m_liquid_map := by
  unfold GridMap.loadAreaData at h
  split at h
  · exact absurd h (by simp)
  · cases h
    simp

theorem loadHolesData_liquid {g g' : GridMap} {sec : Option (Int → Int → Nat)}
    (h : g.loadHolesData sec = some g') :
    g'.m_liquidEntry = g.m_liquidEntry ∧ g'.m_liquidFlags = g.m_liquidFlags ∧
    g'.m_liquid_map = g.m_liquid_map := by
  unfold GridMap.loadHolesData at h
  cases sec with
  | none => exact absurd h (by simp)
  | some hh =>
    cases h
    simp

theorem loadHeightData_liquid {g g' : GridMap} {sec : HeightSection}
    (h : g.loadHeightData sec = some g') :
    g'.m_liquidEntry = g.m_liquidEntry ∧ g'.m_liquidFlags = g.m_liquidFlags ∧
    g'.m_liquid_map = g.m_liquid_map := by
  unfold GridMap.loadHeightData at h
  split at h
  · exact absurd h (by simp)
  · split at h
    · split at h
      · cases h
        simp
      · split at h
        · cases h
          simp
        · cases h
          simp
    · cases h
      simp

/-- Claim C2 as amended: a tile file with a valid root magic/version but a
malformed sub-block makes loadData return failure, and the failure always
leaves the liquid sub-block (the last to load) unpopulated; sub-blocks
parsed before the failing one, however, remain populated (partial state is
kept until the unloadData at the start of the next load) — see the
counterexample for the retained area block. -/
theorem claim_C2 (g0 : GridMap) (f : MapFile)
    (h : (GridMap.loadData g0 (some f)).1 = false) :
    (GridMap.loadData g0 (some f)).2.m_liquidEntry = none ∧
    (GridMap.loadData g0 (some f)).2.m_liquidFlags = none ∧
    (GridMap.loadData g0 (some f)).2.m_liquid_map = none := by
  unfold GridMap.loadData at h ⊢
  dsimp only at h ⊢
  by_cases hm : f.header.mapMagic = MAP_MAGIC_V ∧ f.header.versionMagic = MAP_VERSION_MAGIC_V
  case neg =>
    rw [if_neg hm]
    exact unloadData_liquid g0
  rw [if_pos hm] at h ⊢
  rcases hA : (if f.header.areaMapOffset ≠ 0 then (g0.unloadData).loadAreaData f.areaSec
              else some g0.unloadData) with _ | g1
  · exact unloadData_liquid g0
  have hg1 : g1.m_liquidEntry = none ∧ g1.m_liquidFlags = none ∧ g1.m_liquid_map = none := by
    split at hA
    · rcases loadAreaData_liquid hA with ⟨e1, e2, e3⟩
      rw [e1, e2, e3]
      exact unloadData_liquid g0
    · cases hA
      exact unloadData_liquid g0
  dsimp only
  rcases hB : (if f.header.holesOffset ≠ 0 then g1.loadHolesData f.holesSec else some g1)
      with _ | g2
  · exact hg1
  have hg2 : g2.m_liquidEntry = none ∧ g2.m_liquidFlags = none ∧ g2.m_liquid_map = none := by
    split at hB
    · rcases loadHolesData_liquid hB with ⟨e1, e2, e3⟩
      rw [e1, e2, e3]
      exact hg1
    · cases hB
      exact hg1
  dsimp only
  rcases hC : (if f.header.heightMapOffset ≠ 0 then g2.loadHeightData f.heightSec else some g2)
      with _ | g3
  · exact hg2
  have hg3 : g3.m_liquidEntry = none ∧ g3.m_liquidFlags = none ∧ g3.m_liquid_map = none := by
    split at hC
    · rcases loadHeightData_liquid hC with ⟨e1, e2, e3⟩
      rw [e1, e2, e3]
      exact hg2
    · cases hC
      exact hg2
  dsimp only
  rcases hD : (if f.header.liquidMapOffset ≠ 0 then g3.loadGridMapLiquidData f.liquidSec
              else some g3) with _ | g4
  · exact hg3
  -- a fully successful load returns true, contradicting h
  rw [hA] at h
  dsimp only at h
  rw [hB] at h
  dsimp only at h
  rw [hC] at h
  dsimp only at h
  rw [hD] at h
  simp at h

/-- A well-formed area sub-block with a populated 16x16 grid. -/
def areaSecOK : AreaSection :=
  { header := { fourcc := MAP_AREA_MAGIC_V, flags := 0, gridArea := 7 },
    areaMapData := fun _ => 5 }

/-- A height sub-block whose 4-byte tag does not match "MHGT". -/
def heightSecBadTag : HeightSection :=
  { header := { fourcc := 0, flags := 0, gridHeight := 0, gridMaxHeight := 0 },
    v9f := fun _ => 0
    v8f := fun _ => 0
    v9u16 := fun _ => 0
    v8u16 := fun _ => 0
    v9u8 := fun _ => 0
    v8u8 := fun _ => 0 }

/-- A well-formed liquid sub-block with no grids. -/
def liquidSecDummy : LiquidSection :=
  { header := { fourcc := MAP_LIQUID_MAGIC_V, flags := 3, liquidType := 0, liquidFlags := 0,
                offsetX := 0, offsetY := 0, width := 0, height := 0, liquidLevel := 0 },
    entryData := fun _ => 0
    flagsData := fun _ => 0
    heightData := fun _ => 0 }

/-- A tile file with a valid root magic and version, a valid populated
area sub-block, and a height sub-block with a bad tag. -/
def badSubBlockFile : MapFile :=
  { header := { mapMagic := MAP_MAGIC_V, versionMagic := MAP_VERSION_MAGIC_V,
                areaMapOffset := 44, areaMapSize := 516, heightMapOffset := 600,
                heightMapSize := 100, liquidMapOffset := 0, liquidMapSize := 0,
                holesOffset := 0, holesSize := 0 },
    areaSec := areaSecOK, holesSec := none, heightSec := heightSecBadTag,
    liquidSec := liquidSecDummy }

/-- Claim C2 counterexample: loading a file whose root tags are valid,
whose area sub-block parses, and whose height sub-block tag mismatches
returns failure but leaves the already-parsed area sub-block populated:
partial state survives the failed load. -/
theorem claim_C2_counterexample :
    (GridMap.loadData emptyGridMap (some badSubBlockFile)).1 = false ∧
    ((GridMap.loadData emptyGridMap (some badSubBlockFile)).2.m_area_map).isSome = true := by
  constructor <;> decide

/-- Witness for the amended claim C2 at the bad-height-tag file. -/
theorem claim_C2_witness :
    (GridMap.loadData emptyGridMap (some badSubBlockFile)).1 = false ∧
    ((GridMap.loadData emptyGridMap (some badSubBlockFile)).2.m_liquidEntry = none ∧
     (GridMap.loadData emptyGridMap (some badSubBlockFile)).2.m_liquidFlags = none ∧
     (GridMap.loadData emptyGridMap (some badSubBlockFile)).2.m_liquid_map = none) :=
  ⟨by decide, claim_C2 emptyGridMap badSubBlockFile (by decide)⟩

/-- Claim C9: a missing tile file (fopen failure) makes loadData succeed
with an explicitly empty tile — every sub-block buffer null and the flat
height strategy — while a present file whose root magic or version tag
mismatches makes loadData fail. -/
theorem claim_C9 (g0 : GridMap) (f : MapFile)
    (hbad : f.header.mapMagic ≠ MAP_MAGIC_V ∨ f.header.versionMagic ≠ MAP_VERSION_MAGIC_V) :
    ((GridMap.loadData g0 none).1 = true ∧
     (GridMap.loadData g0 none).2.m_area_map = none ∧
     (GridMap.loadData g0 none).2.m_V9 = none ∧
     (GridMap.loadData g0 none).2.m_V8 = none ∧
     (GridMap.loadData g0 none).2.m_uint16_V9 = none ∧
     (GridMap.loadData g0 none).2.m_uint16_V8 = none ∧
     (GridMap.loadData g0 none).2.m_uint8_V9 = none ∧
     (GridMap.loadData g0 none).2.m_uint8_V8 = none ∧
     (GridMap.loadData g0 none).2.m_liquidEntry = none ∧
     (GridMap.loadData g0 none).2.m_liquidFlags = none ∧
     (GridMap.loadData g0 none).2.m_liquid_map = none ∧
     (GridMap.loadData g0 none).2.m_gridGetHeight = HeightStrategy.flat) ∧
    (GridMap.loadData g0 (some f)).1 = false := by
  constructor
  · exact ⟨rfl, by simp [GridMap.loadData, GridMap.unloadData]⟩
  · have hc : ¬ (f.header.mapMagic = MAP_MAGIC_V ∧ f.header.versionMagic = MAP_VERSION_MAGIC_V) := by
      rintro ⟨h1, h2⟩
      rcases hbad with hb | hb
      exacts [hb h1, hb h2]
    unfold GridMap.loadData
    dsimp only
    rw [if_neg hc]

/-- A tile file whose root magic does not match "MAPS". -/
def badRootFile : MapFile :=
  { header := { mapMagic := 0xDEAD, versionMagic := MAP_VERSION_MAGIC_V,
                areaMapOffset := 0, areaMapSize := 0, heightMapOffset := 0,
                heightMapSize := 0, liquidMapOffset := 0, liquidMapSize := 0,
                holesOffset := 0, holesSize := 0 },
    areaSec := areaSecOK, holesSec := none, heightSec := heightSecBadTag,
    liquidSec := liquidSecDummy }

/-- Witness for claim C9 at a concrete bad-root-magic file. -/
theorem claim_C9_witness :
    (badRootFile.header.mapMagic ≠ MAP_MAGIC_V ∨
     badRootFile.header.versionMagic ≠ MAP_VERSION_MAGIC_V) ∧
    (((GridMap.loadData emptyGridMap none).1 = true ∧
      (GridMap.loadData emptyGridMap none).2.m_area_map = none ∧
      (GridMap.loadData emptyGridMap none).2.m_V9 = none ∧
      (GridMap.loadData emptyGridMap none).2.m_V8 = none ∧
      (GridMap.loadData emptyGridMap none).2.m_uint16_V9 = none ∧
      (GridMap.loadData emptyGridMap none).2.m_uint16_V8 = none ∧
      (GridMap.loadData emptyGridMap none).2.m_uint8_V9 = none ∧
      (GridMap.loadData emptyGridMap none).2.m_uint8_V8 = none ∧
      (GridMap.loadData emptyGridMap none).2.m_liquidEntry = none ∧
      (GridMap.loadData emptyGridMap none).2.m_liquidFlags = none ∧
      (GridMap.loadData emptyGridMap none).2.m_liquid_map = none ∧
      (GridMap.loadData emptyGridMap none).2.m_gridGetHeight = HeightStrategy.flat) ∧
     (GridMap.loadData emptyGridMap (some badRootFile)).1 = false) :=
  ⟨by decide, claim_C9 emptyGridMap badRootFile (by decide)⟩

theorem fineIndex_nonneg (c : ℚ) : 0 ≤ fineIndex c :=
  Int.emod_nonneg _ (by decide)

theorem fineIndex_lt (c : ℚ) : fineIndex c < 128 := by
  have h := Int.emod_lt_of_pos (cTrunc (mapCoordFine c)) (show (0 : Int) < MAP_RESOLUTION by decide)
  unfold fineIndex
  exact lt_of_lt_of_eq h (by decide)

theorem mapCoordFine_zero : mapCoordFine 0 = 4096 := by
  unfold mapCoordFine MAP_RESOLUTION SIZE_OF_GRIDS
  norm_num

theorem fineIndex_zero : fineIndex 0 = 0 := by
  unfold fineIndex
  rw [mapCoordFine_zero, show (4096 : ℚ) = ((4096 : Int) : ℚ) by norm_num, cTrunc_intCast]
  decide

theorem fineFrac_zero : fineFrac 0 = 0 := by
  unfold fineFrac
  rw [mapCoordFine_zero, show (4096 : ℚ) = ((4096 : Int) : ℚ) by norm_num, cTrunc_intCast]
  norm_num

theorem holetab_land_full (hr hc : Int) (h1 : 0 ≤ hr) (h2 : hr < 4) (h3 : 0 ≤ hc) (h4 : hc < 4) :
    Nat.land (Nat.land 65535 (holetab_h hc)) (holetab_v hr) ≠ 0 := by
  interval_cases hr <;> interval_cases hc <;> decide

theorem isHole_of_full_mask (g : GridMap) (row col : Int)
    (hr1 : 0 ≤ row) (hr2 : row < 128) (hc1 : 0 ≤ col) (hc2 : col < 128)
    (hm : g.m_holes (row / 8) (col / 8) = 65535) :
    g.isHole row col = true := by
  unfold GridMap.isHole
  dsimp only
  rw [hm]
  rw [bne_iff_ne]
  apply holetab_land_full <;> omega

/-- Claim C1 as amended: only the float height strategy consults the hole
mask. Under the float strategy any query whose tile-local cell lies in an
all-holes macro-cell (mask 0xFFFF) returns the invalid-height sentinel;
the 16-bit, 8-bit and flat strategies ignore the hole mask entirely
(their results are invariant under any change of the mask). -/
theorem claim_C1 (g : GridMap) (v9 v8 : Int → ℚ) (x y : ℚ)
    (h9 : g.m_V9 = some v9) (h8 : g.m_V8 = some v8)
    (hm : g.m_holes (fineIndex x / 8) (fineIndex y / 8) = 65535) :
    g.getHeightFromFloat x y = INVALID_HEIGHT_VALUE ∧
    (∀ (g2 : GridMap) (hfun : Int → Int → Nat) (x2 y2 : ℚ),
      GridMap.getHeightFromUint16 { g2 with m_holes := hfun } x2 y2 =
        g2.getHeightFromUint16 x2 y2) ∧
    (∀ (g2 : GridMap) (hfun : Int → Int → Nat) (x2 y2 : ℚ),
      GridMap.getHeightFromUint8 { g2 with m_holes := hfun } x2 y2 =
        g2.getHeightFromUint8 x2 y2) ∧
    (∀ (g2 : GridMap) (hfun : Int → Int → Nat) (x2 y2 : ℚ),
      GridMap.getHeightFromFlat { g2 with m_holes := hfun } x2 y2 =
        g2.getHeightFromFlat x2 y2) := by
  refine ⟨?_, ?_, ?_, ?_⟩
  · have hhole : g.isHole (fineIndex x) (fineIndex y) = true :=
      isHole_of_full_mask g _ _ (fineIndex_nonneg x) (fineIndex_lt x)
        (fineIndex_nonneg y) (fineIndex_lt y) hm
    unfold GridMap.getHeightFromFloat
    rw [h8, h9]
    dsimp only
    rw [hhole]
    simp
  · intro g2 hfun x2 y2
    rfl
  · intro g2 hfun x2 y2
    rfl
  · intro g2 hfun x2 y2
    rfl

/-- A float-strategy tile whose hole mask marks every sub-cell. -/
def floatHolesMap : GridMap :=
  { emptyGridMap with
      m_V9 := some fun _ => 50
      m_V8 := some fun _ => 50
      m_gridGetHeight := .fromFloat
      m_holes := fun _ _ => 65535 }

/-- Witness for the amended claim C1: under the float strategy, a query
in the all-holes tile returns the sentinel. -/
theorem claim_C1_witness :
    floatHolesMap.m_holes (fineIndex 0 / 8) (fineIndex 0 / 8) = 65535 ∧
    floatHolesMap.getHeightFromFloat 0 0 = INVALID_HEIGHT_VALUE :=
  ⟨rfl, (claim_C1 floatHolesMap (fun _ => 50) (fun _ => 50) 0 0 rfl rfl rfl).1⟩

/-- A 16-bit-strategy tile with valid grid data (raw value 100,
multiplier 1, base height 0) whose hole mask marks every sub-cell. -/
def u16HolesMap : GridMap :=
  { emptyGridMap with
      m_uint16_V9 := some fun _ => 100
      m_uint16_V8 := some fun _ => 100
      m_gridIntHeightMultiplier := 1
      m_gridHeight := 0
      m_holes := fun _ _ => 65535
      m_gridGetHeight := .fromUint16 }

/-- Claim C1 counterexample: under the 16-bit quantized strategy a query
landing in an all-holes macro-cell does NOT return the invalid-height
sentinel: the strategy never checks the hole mask and returns the
interpolated value 100. -/
theorem claim_C1_counterexample :
    u16HolesMap.isHole (fineIndex 0) (fineIndex 0) = true ∧
    u16HolesMap.getHeight 0 0 = 100 ∧
    u16HolesMap.getHeight 0 0 ≠ INVALID_HEIGHT_VALUE := by
  have hh : u16HolesMap.getHeight 0 0 = 100 := by
    have e1 : u16HolesMap.getHeight 0 0 = u16HolesMap.getHeightFromUint16 0 0 := rfl
    rw [e1]
    unfold GridMap.getHeightFromUint16
    rw [show u16HolesMap.m_uint16_V8 = some (fun _ => 100) from rfl,
        show u16HolesMap.m_uint16_V9 = some (fun _ => 100) from rfl,
        show u16HolesMap.m_gridIntHeightMultiplier = 1 from rfl,
        show u16HolesMap.m_gridHeight = 0 from rfl]
    dsimp only
    rw [fineFrac_zero]
    norm_num
  refine ⟨by rw [fineIndex_zero]; decide, hh, ?_⟩
  rw [hh]
  unfold INVALID_HEIGHT_VALUE
  norm_num

/-- Claim C4: for a non-hole point with fractional cell position
(fx, fy) in [0,1) x [0,1), the float strategy selects the triangle by
fx + fy < 1 (upper half) and then fx > fy, and returns exactly the plane
a*fx + b*fy + c whose coefficients are, per triangle, the source's
closed-form combinations of two adjacent V9 corner samples and twice the
V8 center sample. -/
theorem claim_C4 (g : GridMap) (v9 v8 : Int → ℚ) (x y : ℚ) (xi yi : Int) (fx fy : ℚ)
    (h9 : g.m_V9 = some v9) (h8 : g.m_V8 = some v8)
    (hxi : xi = fineIndex x) (hyi : yi = fineIndex y)
    (hfx : fx = fineFrac x) (hfy : fy = fineFrac y)
    (hhole : g.isHole xi yi = false)
    (hfx1 : 0 ≤ fx ∧ fx < 1) (hfy1 : 0 ≤ fy ∧ fy < 1) :
    (fx + fy < 1 → fx > fy →
      g.getHeightFromFloat x y =
        (v9 ((xi + 1) * 129 + yi) - v9 (xi * 129 + yi)) * fx +
        (2 * v8 (xi * 128 + yi) - v9 (xi * 129 + yi) - v9 ((xi + 1) * 129 + yi)) * fy +
        v9 (xi * 129 + yi)) ∧
    (fx + fy < 1 → ¬ fx > fy →
      g.getHeightFromFloat x y =
        (2 * v8 (xi * 128 + yi) - v9 (xi * 129 + yi) - v9 (xi * 129 + yi + 1)) * fx +
        (v9 (xi * 129 + yi + 1) - v9 (xi * 129 + yi)) * fy +
        v9 (xi * 129 + yi)) ∧
    (¬ fx + fy < 1 → fx > fy →
      g.getHeightFromFloat x y =
        (v9 ((xi + 1) * 129 + yi) + v9 ((xi + 1) * 129 + yi + 1) - 2 * v8 (xi * 128 + yi)) * fx +
        (v9 ((xi + 1) * 129 + yi + 1) - v9 ((xi + 1) * 129 + yi)) * fy +
        (2 * v8 (xi * 128 + yi) - v9 ((xi + 1) * 129 + yi + 1))) ∧
    (¬ fx + fy < 1 → ¬ fx > fy →
      g.getHeightFromFloat x y =
        (v9 ((xi + 1) * 129 + yi + 1) - v9 (xi * 129 + yi + 1)) * fx +
        (v9 (xi * 129 + yi + 1) + v9 ((xi + 1) * 129 + yi + 1) - 2 * v8 (xi * 128 + yi)) * fy +
        (2 * v8 (xi * 128 + yi) - v9 ((xi + 1) * 129 + yi + 1))) := by
  subst hxi hyi hfx hfy
  unfold GridMap.getHeightFromFloat
  rw [h8, h9]
  dsimp only
  rw [hhole]
  simp only [Bool.false_eq_true, if_false]
  refine ⟨?_, ?_, ?_, ?_⟩ <;> intro hA hB
  · rw [if_pos hA, if_pos hB]
  · rw [if_pos hA, if_neg hB]
  · rw [if_neg hA, if_pos hB]
  · rw [if_neg hA, if_neg hB]

/-- A float-strategy tile whose V9/V8 samples are the flat index itself,
with no holes. -/
def floatTestMap : GridMap :=
  { emptyGridMap with
      m_V9 := some fun i => (i : ℚ)
      m_V8 := some fun i => (i : ℚ)
      m_gridGetHeight := .fromFloat }

/-- Witness for claim C4 at the origin: the query falls in triangle 2
(fx + fy < 1, not fx > fy) and returns the h1 corner sample. -/
theorem claim_C4_witness : floatTestMap.getHeightFromFloat 0 0 = 0 := by
  have hfz : fineFrac 0 = 0 := fineFrac_zero
  have hiz : fineIndex 0 = 0 := fineIndex_zero
  have h := (claim_C4 floatTestMap (fun i => (i : ℚ)) (fun i => (i : ℚ)) 0 0
      (fineIndex 0) (fineIndex 0) (fineFrac 0) (fineFrac 0)
      rfl rfl rfl rfl rfl rfl
      (by rw [hiz]; decide)
      (by rw [hfz]; norm_num)
      (by rw [hfz]; norm_num)).2.1
      (by rw [hfz]; norm_num)
      (by rw [hfz]; norm_num)
  rw [h, hfz, hiz]
  norm_num

/-- The tile-grid index TerrainInfo::GetGrid computes for one world
coordinate: `int gx = (int)(32 - x / SIZE_OF_GRIDS)` — used directly to
index the 64x64 slot array m_GridMaps with no bounds check. -/
def gridCoord (c : ℚ) : Int := cTrunc (32 - c / SIZE_OF_GRIDS)

/-- Whether the grid index of GetGrid stays inside the 64x64 slot array. -/
def gridCoordInBounds (c : ℚ) : Prop :=
  0 ≤ gridCoord c ∧ gridCoord c < MAX_NUMBER_OF_GRIDS

/-- Claim C6 counterexample: the grid-index computation of GetGrid is not
bounds-checked, and at world coordinate x = -17100 it produces index 64,
one past the end of the 64x64 slot array: the query layer is not total
on all world coordinates. -/
theorem claim_C6_counterexample :
    gridCoord (-17100) = 64 ∧ ¬ gridCoordInBounds (-17100) := by
  have h : gridCoord (-17100) = 64 := by
    unfold gridCoord
    have hq : (32 : ℚ) - (-17100) / SIZE_OF_GRIDS = 1025 / 16 := by
      unfold SIZE_OF_GRIDS
      norm_num
    rw [hq, cTrunc_eq_floor (by norm_num)]
    rw [Int.floor_eq_iff]
    norm_num
  refine ⟨h, ?_⟩
  unfold gridCoordInBounds MAX_NUMBER_OF_GRIDS
  rw [h]
  omega

/-- Claim C6 as amended: the per-tile cell lookups are always in range
(the 16x16 indices of getArea/getTerrainType and the 128x128 indices of
the height/liquid queries are masked into range for every world
coordinate, so those queries are total and return their sentinels), and
the tile-grid index of GetGrid is in range whenever the transformed
coordinate 32 - x/SIZE_OF_GRIDS lies in (-1, 64); outside that window
GetGrid indexes out of bounds (see the counterexample). -/
theorem claim_C6 (x : ℚ)
    (h1 : -1 < 32 - x / SIZE_OF_GRIDS) (h2 : 32 - x / SIZE_OF_GRIDS < 64) :
    gridCoordInBounds x ∧
    (∀ c : ℚ, 0 ≤ GridMap.coarseIndex c ∧ GridMap.coarseIndex c < 16) ∧
    (∀ c : ℚ, 0 ≤ fineIndex c ∧ fineIndex c < 128) ∧
    (∀ cx cy : ℚ, 0 ≤ GridMap.coarseIndex cx * 16 + GridMap.coarseIndex cy ∧
      GridMap.coarseIndex cx * 16 + GridMap.coarseIndex cy < 256) := by
  have hco : ∀ c : ℚ, 0 ≤ GridMap.coarseIndex c ∧ GridMap.coarseIndex c < 16 := by
    intro c
    unfold GridMap.coarseIndex
    constructor
    · exact Int.emod_nonneg _ (by decide)
    · exact Int.emod_lt_of_pos _ (by decide)
  refine ⟨?_, hco, ?_, ?_⟩
  · unfold gridCoordInBounds gridCoord MAX_NUMBER_OF_GRIDS
    by_cases hq : 0 ≤ 32 - x / SIZE_OF_GRIDS
    · rw [cTrunc_eq_floor hq]
      constructor
      · exact Int.floor_nonneg.mpr hq
      · exact Int.floor_lt.mpr (by exact_mod_cast h2)
    · push_neg at hq
      rw [cTrunc_eq_ceil (le_of_lt hq)]
      constructor
      · have : (-1 : Int) < ⌈32 - x / SIZE_OF_GRIDS⌉ :=
          Int.lt_ceil.mpr (by exact_mod_cast h1)
        omega
      · have : ⌈32 - x / SIZE_OF_GRIDS⌉ ≤ 0 := Int.ceil_le.mpr (by exact_mod_cast le_of_lt hq)
        omega
  · intro c
    exact ⟨fineIndex_nonneg c, fineIndex_lt c⟩
  · intro cx cy
    have h1 := hco cx
    have h2 := hco cy
    omega

/-- Witness for the amended claim C6 at the origin. -/
theorem claim_C6_witness :
    (-1 < (32 : ℚ) - 0 / SIZE_OF_GRIDS) ∧ ((32 : ℚ) - 0 / SIZE_OF_GRIDS < 64) ∧
    (gridCoordInBounds 0 ∧
     (∀ c : ℚ, 0 ≤ GridMap.coarseIndex c ∧ GridMap.coarseIndex c < 16) ∧
     (∀ c : ℚ, 0 ≤ fineIndex c ∧ fineIndex c < 128) ∧
     (∀ cx cy : ℚ, 0 ≤ GridMap.coarseIndex cx * 16 + GridMap.coarseIndex cy ∧
       GridMap.coarseIndex cx * 16 + GridMap.coarseIndex cy < 256)) :=
  ⟨by norm_num, by norm_num,
   claim_C6 0 (by norm_num) (by norm_num)⟩

set_option maxHeartbeats 2000000 in
/-- Claim C10: getLiquidStatus writes the caller's detail out-parameter
exactly when the result is not NoWater: every NoWater reject path leaves
it untouched (modelled: the Option detail component is some iff the
status is not NoWater). -/
theorem claim_C10 (env : DbcEnv) (g : GridMap) (x y z : ℚ) (req : Nat) (ch : ℚ) :
    (g.getLiquidStatus env x y z req ch).2.isSome = true ↔
      (g.getLiquidStatus env x y z req ch).1 ≠ GridMapLiquidStatus.LIQUID_MAP_NO_WATER := by
  unfold GridMap.getLiquidStatus
  dsimp only
  generalize fineIndex x = xi
  generalize fineIndex y = yi
  generalize GridMap.resolveLiquidTypeEntry env g x y (g.liquidEntryAt (xi / 8 * 16 + yi / 8))
      (g.liquidFlagsAt (xi / 8 * 16 + yi / 8)) = te
  generalize g.getHeight x y = gl
  generalize g.liquidLevelAt ((xi - (g.m_liquid_offY : Int)) * (g.m_liquid_width : Int) +
      (yi - (g.m_liquid_offX : Int))) = ll
  split
  · simp
  split
  · simp
  split
  · simp
  split
  · simp
  split
  · simp
  split
  · simp
  split
  · simp
  split
  · simp
  split
  · simp
  simp

/-- An environment whose metadata lookups all miss (LookupEntry null). -/
def emptyEnv : DbcEnv :=
  { liquidTypeStore := fun _ => none, areaStore := fun _ => none, areaByID := fun _ => none }

/-- A tile with a tile-wide liquid (global flags 1, level 10), a liquid
sub-window covering the whole tile, flat ground at height 0. -/
def liquidTestMap : GridMap :=
  { emptyGridMap with
      m_liquidGlobalFlags := 1
      m_liquid_width := 128
      m_liquid_height := 128
      m_liquidLevel := 10
      m_gridHeight := 0 }

theorem liquidTestMap_eval (z : ℚ) (hz : -2 ≤ z) :
    liquidTestMap.getLiquidStatus emptyEnv 0 0 z 0 2 =
      ((if 10 - z > 2 then GridMapLiquidStatus.LIQUID_MAP_UNDER_WATER
        else if 10 - z > 0 then GridMapLiquidStatus.LIQUID_MAP_IN_WATER
        else if 10 - z > -1 then GridMapLiquidStatus.LIQUID_MAP_WATER_WALK
        else GridMapLiquidStatus.LIQUID_MAP_ABOVE_WATER),
       some { entry := 0, type_flags := 1, level := 10, depth_level := 0 }) := by
  unfold GridMap.getLiquidStatus
  dsimp only
  rw [fineIndex_zero]
  have hte : GridMap.resolveLiquidTypeEntry emptyEnv liquidTestMap 0 0
      (liquidTestMap.liquidEntryAt ((0 : Int) / 8 * 16 + (0 : Int) / 8))
      (liquidTestMap.liquidFlagsAt ((0 : Int) / 8 * 16 + (0 : Int) / 8)) = (0, 1) := rfl
  rw [hte]
  have hll : liquidTestMap.liquidLevelAt
      ((((0 : Int)) - (liquidTestMap.m_liquid_offY : Int)) * (liquidTestMap.m_liquid_width : Int) +
       (((0 : Int)) - (liquidTestMap.m_liquid_offX : Int))) = 10 := rfl
  have hgl : liquidTestMap.getHeight 0 0 = 0 := rfl
  rw [hll, hgl]
  rw [if_neg (by decide), if_neg (by decide), if_neg (by decide), if_neg (by decide),
      if_neg (by decide)]
  have hc6 : ¬ ((10 : ℚ) < 0 ∨ z < 0 - 2) := by
    push_neg
    exact ⟨by norm_num, by linarith⟩
  rw [if_neg hc6]
  split_ifs <;> rfl

set_option maxHeartbeats 2000000 in
theorem getLiquidStatus_classify (env : DbcEnv) (g : GridMap) (x y z : ℚ) (req : Nat) (ch : ℚ) :
    (g.getLiquidStatus env x y z req ch).1 = GridMapLiquidStatus.LIQUID_MAP_NO_WATER ∨
    ∃ d : GridMapLiquidData,
      (g.getLiquidStatus env x y z req ch).2 = some d ∧
      (g.getLiquidStatus env x y z req ch).1 =
        (if d.level - z > ch then GridMapLiquidStatus.LIQUID_MAP_UNDER_WATER
         else if d.level - z > 0 then GridMapLiquidStatus.LIQUID_MAP_IN_WATER
         else if d.level - z > -1 then GridMapLiquidStatus.LIQUID_MAP_WATER_WALK
         else GridMapLiquidStatus.LIQUID_MAP_ABOVE_WATER) := by
  unfold GridMap.getLiquidStatus
  dsimp only
  generalize fineIndex x = xi
  generalize fineIndex y = yi
  generalize GridMap.resolveLiquidTypeEntry env g x y (g.liquidEntryAt (xi / 8 * 16 + yi / 8))
      (g.liquidFlagsAt (xi / 8 * 16 + yi / 8)) = te
  generalize g.getHeight x y = gl
  generalize g.liquidLevelAt ((xi - (g.m_liquid_offY : Int)) * (g.m_liquid_width : Int) +
      (yi - (g.m_liquid_offX : Int))) = ll
  split
  · left; rfl
  split
  · left; rfl
  split
  · left; rfl
  split
  · left; rfl
  split
  · left; rfl
  split
  · left; rfl
  right
  refine ⟨⟨te.1, te.2, ll, gl⟩, ?_, ?_⟩ <;> split_ifs <;> rfl

/-- Claim C5: every liquid query that passes the type-mask, sub-window
and ground checks is classified by delta = liquidLevel - z exactly as
delta > collisionHeight => UnderWater, delta > 0 => InWater,
delta > -1 => WaterWalk, else AboveWater; and in particular, on a tile
with liquid level 10 and with collisionHeight 2, z = 7.5 gives
UnderWater, z = 9.5 InWater, z = 10.5 WaterWalk and z = 12 AboveWater. -/
theorem claim_C5 (env : DbcEnv) (g : GridMap) (x y z : ℚ) (req : Nat) (ch : ℚ)
    (h : (g.getLiquidStatus env x y z req ch).1 ≠ GridMapLiquidStatus.LIQUID_MAP_NO_WATER) :
    (∃ d : GridMapLiquidData,
      (g.getLiquidStatus env x y z req ch).2 = some d ∧
      (g.getLiquidStatus env x y z req ch).1 =
        (if d.level - z > ch then GridMapLiquidStatus.LIQUID_MAP_UNDER_WATER
         else if d.level - z > 0 then GridMapLiquidStatus.LIQUID_MAP_IN_WATER
         else if d.level - z > -1 then GridMapLiquidStatus.LIQUID_MAP_WATER_WALK
         else GridMapLiquidStatus.LIQUID_MAP_ABOVE_WATER)) ∧
    ((liquidTestMap.getLiquidStatus emptyEnv 0 0 (15/2) 0 2).1 =
        GridMapLiquidStatus.LIQUID_MAP_UNDER_WATER ∧
     (liquidTestMap.getLiquidStatus emptyEnv 0 0 (19/2) 0 2).1 =
        GridMapLiquidStatus.LIQUID_MAP_IN_WATER ∧
     (liquidTestMap.getLiquidStatus emptyEnv 0 0 (21/2) 0 2).1 =
        GridMapLiquidStatus.LIQUID_MAP_WATER_WALK ∧
     (liquidTestMap.getLiquidStatus emptyEnv 0 0 12 0 2).1 =
        GridMapLiquidStatus.LIQUID_MAP_ABOVE_WATER) := by
  constructor
  · rcases getLiquidStatus_classify env g x y z req ch with hc | hc
    · exact absurd hc h
    · exact hc
  refine ⟨?_, ?_, ?_, ?_⟩
  · rw [liquidTestMap_eval (15/2) (by norm_num)]
    dsimp only
    rw [if_pos (by norm_num : (10 : ℚ) - 15/2 > 2)]
  · rw [liquidTestMap_eval (19/2) (by norm_num)]
    dsimp only
    rw [if_neg (by norm_num : ¬ ((10 : ℚ) - 19/2 > 2)),
        if_pos (by norm_num : (10 : ℚ) - 19/2 > 0)]
  · rw [liquidTestMap_eval (21/2) (by norm_num)]
    dsimp only
    rw [if_neg (by norm_num : ¬ ((10 : ℚ) - 21/2 > 2)),
        if_neg (by norm_num : ¬ ((10 : ℚ) - 21/2 > 0)),
        if_pos (by norm_num : (10 : ℚ) - 21/2 > -1)]
  · rw [liquidTestMap_eval 12 (by norm_num)]
    dsimp only
    rw [if_neg (by norm_num : ¬ ((10 : ℚ) - 12 > 2)),
        if_neg (by norm_num : ¬ ((10 : ℚ) - 12 > 0)),
        if_neg (by norm_num : ¬ ((10 : ℚ) - 12 > -1))]

/-- Witness for claim C5 at the test tile with z = 7.5. -/
theorem claim_C5_witness :
    (liquidTestMap.getLiquidStatus emptyEnv 0 0 (15/2) 0 2).1 ≠
      GridMapLiquidStatus.LIQUID_MAP_NO_WATER ∧
    ((∃ d : GridMapLiquidData,
        (liquidTestMap.getLiquidStatus emptyEnv 0 0 (15/2) 0 2).2 = some d ∧
        (liquidTestMap.getLiquidStatus emptyEnv 0 0 (15/2) 0 2).1 =
          (if d.level - 15/2 > 2 then GridMapLiquidStatus.LIQUID_MAP_UNDER_WATER
           else if d.level - 15/2 > 0 then GridMapLiquidStatus.LIQUID_MAP_IN_WATER
           else if d.level - 15/2 > -1 then GridMapLiquidStatus.LIQUID_MAP_WATER_WALK
           else GridMapLiquidStatus.LIQUID_MAP_ABOVE_WATER)) ∧
     ((liquidTestMap.getLiquidStatus emptyEnv 0 0 (15/2) 0 2).1 =
        GridMapLiquidStatus.LIQUID_MAP_UNDER_WATER ∧
      (liquidTestMap.getLiquidStatus emptyEnv 0 0 (19/2) 0 2).1 =
        GridMapLiquidStatus.LIQUID_MAP_IN_WATER ∧
      (liquidTestMap.getLiquidStatus emptyEnv 0 0 (21/2) 0 2).1 =
        GridMapLiquidStatus.LIQUID_MAP_WATER_WALK ∧
      (liquidTestMap.getLiquidStatus emptyEnv 0 0 12 0 2).1 =
        GridMapLiquidStatus.LIQUID_MAP_ABOVE_WATER)) := by
  have hne : (liquidTestMap.getLiquidStatus emptyEnv 0 0 (15/2) 0 2).1 ≠
      GridMapLiquidStatus.LIQUID_MAP_NO_WATER := by
    rw [liquidTestMap_eval (15/2) (by norm_num)]
    dsimp only
    rw [if_pos (by norm_num : (10 : ℚ) - 15/2 > 2)]
    intro hx
    exact absurd hx (by decide)
  exact ⟨hne, claim_C5 emptyEnv liquidTestMap 0 0 (15/2) 0 2 hne⟩
